import Mathlib

/-!
Shallow embedding of the transaction-classification core of
subscription-chaser (src/main.py) and proofs about it.

Modelling conventions:
- A pandas DataFrame row that survived normalization (main.py lines 35-42:
  column renaming, pd.to_datetime, astype(float)) is a `Transaction` with a
  calendar `Date`, a `vendor` string and a `charge` amount.  Charges are
  embedded as exact rationals (the Python code uses floats; every amount in
  this development is exactly representable, so no rounding behaviour is
  exercised).
- Python sets are modelled as lists with membership-only semantics.
- Python `sorted` and pandas sorts are stable; they are modelled with
  `List.insertionSort`, whose orderedInsert places an element before the
  first already-placed element it is not strictly after, which reproduces
  a stable sort when the relation is a non-strict (total) preorder.
- pandas mutation (`df[...] = ...` on a caller-visible frame) is modelled
  by explicit state passing: a mutating operation returns both its result
  and the post-state of its input frame.
-/

namespace SubscriptionChaser

/-- Calendar date (year, month, day) as produced by pd.to_datetime on a
statement row; only the date component is used by the program. -/
structure Date where
  year : Nat
  month : Nat
  day : Nat
deriving DecidableEq, Repr

/-- dt.to_period(M): the calendar year-month of a date (main.py line 56). -/
def Date.toPeriodM (d : Date) : Nat × Nat := (d.year, d.month)

/-- A normalized transaction row: the three columns kept by clean_data
(main.py line 49). -/
structure Transaction where
  date : Date
  vendor : String
  charge : ℚ
deriving DecidableEq, Repr

/-- Python str.lower on the ASCII range (vendor names and policy entries
are matched after lower-casing; main.py lines 20-21, 45-46, 71). -/
def pyLower (s : String) : String := String.mk (s.data.map Char.toLower)

/-- Needle is a prefix of the haystack (character-exact). -/
def listStartsWith : List Char → List Char → Bool
  | [], _ => true
  | _ :: _, [] => false
  | a :: as, b :: bs => a = b && listStartsWith as bs

/-- Needle occurs contiguously somewhere in the haystack. -/
def listContainsSub (needle : List Char) : List Char → Bool
  | [] => needle.isEmpty
  | b :: bs => listStartsWith needle (b :: bs) || listContainsSub needle bs

/-- The Python substring test `needle in hay` on strings. -/
def strContains (hay needle : String) : Bool :=
  listContainsSub needle.data hay.data

/-- One category slice of the exclusion policy: the three rule sets kept
for each of recurring/spending (main.py lines 11-14).  Lists model Python
sets (membership semantics only). -/
structure CategoryExclusions where
  vendors : List String
  keywords : List String
  charges : List ℚ
deriving DecidableEq, Repr

/-- The full two-category exclusion policy (main.py lines 11-14). -/
structure Exclusions where
  recurring : CategoryExclusions
  spending : CategoryExclusions
deriving DecidableEq, Repr

/-- The analysis category selector passed to clean_data. -/
inductive Category where
  | recurring
  | spending
deriving DecidableEq, Repr

/-- Dictionary access exclusions[category] (main.py lines 45-47). -/
def Exclusions.slice : Exclusions → Category → CategoryExclusions
  | e, .recurring => e.recurring
  | e, .spending => e.spending

/-- Worker for `dropDuplicates`: drop every element already seen. -/
def dropDuplicatesAux {α : Type} [DecidableEq α] (seen : List α) : List α → List α
  | [] => []
  | x :: xs =>
    if x ∈ seen then dropDuplicatesAux seen xs
    else x :: dropDuplicatesAux (x :: seen) xs

/-- pandas DataFrame.drop_duplicates with keep=first: remove every row
equal to an earlier row, keeping the first occurrence in order
(main.py line 43; the subset [date, vendor, charge] is the whole record
after projection). -/
def dropDuplicates {α : Type} [DecidableEq α] (l : List α) : List α :=
  dropDuplicatesAux [] l

/-- The three exclusion rules of one policy slice, applied as successive
filters exactly as in main.py lines 45-47:
line 45 drops rows whose lower-cased vendor is in the vendors set,
line 46 drops rows some keyword occurs in the lower-cased vendor of,
line 47 drops rows whose charge is in the charges set. -/
def exclusion_filter (ex : CategoryExclusions) (df : List Transaction) :
    List Transaction :=
  let df := df.filter (fun t => !decide (pyLower t.vendor ∈ ex.vendors))
  let df := df.filter
    (fun t => !(ex.keywords.any (fun keyword => strContains (pyLower t.vendor) keyword)))
  let df := df.filter (fun t => !decide (t.charge ∈ ex.charges))
  df

/-- clean_data (main.py lines 34-49) after normalization: line 43
deduplicates on (date, vendor, charge), then lines 45-47 apply the three
exclusion rules of the selected category slice.  Lines 35-42 (column
renaming and parsing) produce the `Transaction` representation and are
not re-modelled here; line 49 projects to the three columns, which is the
identity on `Transaction`. -/
def clean_data (exclusions : Exclusions) (category : Category)
    (df : List Transaction) : List Transaction :=
  exclusion_filter (exclusions.slice category) (dropDuplicates df)

/-- One emitted tuple (vendor, charge, total_spent, months) of
find_recurring_charges (main.py lines 63-64).  The months set is carried
as a duplicate-free list in first-occurrence order. -/
structure RecurringEntry where
  vendor : String
  charge : ℚ
  total_spent : ℚ
  months : List (Nat × Nat)
deriving DecidableEq, Repr

/-- Code-point lexicographic comparison of strings as character lists,
matching the Python string order pandas uses to sort group keys. -/
def charListLt : List Char → List Char → Bool
  | [], [] => false
  | [], _ :: _ => true
  | _ :: _, [] => false
  | a :: as, b :: bs => if a = b then charListLt as bs else decide (a < b)

/-- Ascending order on (vendor, charge) group keys: vendor first, then
charge, as pandas groupby([vendor, charge]) sorts its groups. -/
def groupKeyOrder (k1 k2 : String × ℚ) : Prop :=
  if k1.1 = k2.1 then k1.2 ≤ k2.2 else charListLt k1.1.data k2.1.data = true

instance : DecidableRel groupKeyOrder := fun k1 k2 => by
  unfold groupKeyOrder
  infer_instance

/-- The distinct (vendor, charge) pairs of the frame, in pandas groupby
enumeration order (sorted ascending; main.py line 54). -/
def pandasGroupKeys (df : List Transaction) : List (String × ℚ) :=
  List.insertionSort groupKeyOrder
    (dropDuplicates (df.map (fun t => (t.vendor, t.charge))))

/-- The rows of one groupby partition, in original row order
(main.py line 55). -/
def groupTransactions (df : List Transaction) (k : String × ℚ) :
    List Transaction :=
  df.filter (fun t => decide (t.vendor = k.1 ∧ t.charge = k.2))

/-- set(transactions[date].dt.to_period(M)) (main.py line 56): the
distinct year-months of a partition. -/
def monthsOf (g : List Transaction) : List (Nat × Nat) :=
  dropDuplicates (g.map (fun t => t.date.toPeriodM))

/-- The body of the loop in main.py lines 55-60 for one group key: keys
whose partition spans more than two distinct months yield an entry with
total_spent = charge * len(months) (line 58); other keys yield nothing. -/
def recurringEntryOf (df : List Transaction) (k : String × ℚ) :
    Option RecurringEntry :=
  let months := monthsOf (groupTransactions df k)
  if 2 < months.length then
    some { vendor := k.1, charge := k.2,
           total_spent := k.2 * (months.length : ℚ), months := months }
  else
    none

/-- Descending order on total_spent, the key of the final
sorted(..., reverse=True) in main.py lines 62-66. -/
def recurringOrder (a b : RecurringEntry) : Prop :=
  b.total_spent ≤ a.total_spent

instance : DecidableRel recurringOrder := fun a b =>
  inferInstanceAs (Decidable (b.total_spent ≤ a.total_spent))

instance : IsTotal RecurringEntry recurringOrder :=
  ⟨fun a b => le_total b.total_spent a.total_spent⟩

instance : IsTrans RecurringEntry recurringOrder :=
  ⟨fun _ _ _ h1 h2 => le_trans h2 h1⟩

/-- find_recurring_charges (main.py lines 51-67): group by (vendor,
charge), keep groups spanning more than two distinct months, emit
(vendor, charge, charge * month_count, months) tuples sorted by
total_spent descending (Python sorted with reverse=True is a stable
descending sort). -/
def find_recurring_charges (df : List Transaction) : List RecurringEntry :=
  let entries := (pandasGroupKeys df).filterMap (recurringEntryOf df)
  List.insertionSort recurringOrder entries

/-- Ascending code-point order on vendor names, the order pandas groupby
enumerates single-column string keys in (main.py line 75). -/
def vendorOrder (v1 v2 : String) : Prop :=
  charListLt v1.data v2.data = true ∨ v1 = v2

instance : DecidableRel vendorOrder := fun v1 v2 => by
  unfold vendorOrder
  infer_instance

/-- Ascending order on summed (vendor, total) pairs, the key of
Series.sort_values() in main.py line 75. -/
def vendorTotalOrder (p q : String × ℚ) : Prop :=
  p.2 ≤ q.2

instance : DecidableRel vendorTotalOrder := fun p q =>
  inferInstanceAs (Decidable (p.2 ≤ q.2))

/-- top_vendors_by_spending (main.py lines 74-76):
df.groupby(vendor)[charge].sum() sums the charge of every row of each
vendor (no sign filter), .sort_values() orders totals ascending, and
.head(top_n) keeps the first top_n.  The pandas value sort does not
document tie order; it is modelled as stable, which no theorem below
depends on. -/
def top_vendors_by_spending (df : List Transaction) (top_n : Nat) :
    List (String × ℚ) :=
  let keys := List.insertionSort vendorOrder
    (dropDuplicates (df.map (fun t => t.vendor)))
  let sums := keys.map (fun v =>
    (v, ((df.filter (fun t => decide (t.vendor = v))).map Transaction.charge).sum))
  (List.insertionSort vendorTotalOrder sums).take top_n

/-- top_vendors_by_spending with its Python default argument top_n=25. -/
def top_vendors_by_spending_default (df : List Transaction) : List (String × ℚ) :=
  top_vendors_by_spending df 25

/-- Ascending order on the charge column, the key of
DataFrame.nsmallest(top_n, charge) in main.py line 79. -/
def chargeOrder (t u : Transaction) : Prop :=
  t.charge ≤ u.charge

instance : DecidableRel chargeOrder := fun t u =>
  inferInstanceAs (Decidable (t.charge ≤ u.charge))

/-- most_expensive_charges (main.py lines 78-80): the top_n rows with the
smallest charge (no sign filter), ties resolved toward earlier rows
(nsmallest keep=first), projected to (vendor, charge) by line 80. -/
def most_expensive_charges (df : List Transaction) (top_n : Nat) :
    List (String × ℚ) :=
  ((List.insertionSort chargeOrder df).take top_n).map
    (fun t => (t.vendor, t.charge))

/-- most_expensive_charges with its Python default argument top_n=25. -/
def most_expensive_charges_default (df : List Transaction) : List (String × ℚ) :=
  most_expensive_charges df 25

/-- A spending-category DataFrame as flag_subscription_keywords sees it:
its transaction rows plus the optional boolean flagged column, which is
absent until line 71 of main.py writes it into the frame. -/
structure SpendFrame where
  rows : List Transaction
  flagged : Option (List Bool)
deriving DecidableEq, Repr

/-- The boolean flagged column computed in main.py line 71: per row,
whether some fixed keyword occurs in the lower-cased vendor name. -/
def subscriptionKeywordFlags (rows : List Transaction) : List Bool :=
  rows.map (fun t =>
    ["membership", "subscription", "renewal"].any
      (fun keyword => strContains (pyLower t.vendor) keyword))

/-- flag_subscription_keywords (main.py lines 69-72).  Line 71 assigns the
flagged column into the caller-visible frame (an in-place mutation), and
line 72 returns the sub-frame of rows whose flag is true.  The function is
modelled state-passing: the first component is the returned sub-frame, the
second is the post-state of the input frame. -/
def flag_subscription_keywords (df : SpendFrame) : SpendFrame × SpendFrame :=
  let flags := subscriptionKeywordFlags df.rows
  let dfMut : SpendFrame := { rows := df.rows, flagged := some flags }
  let keptRows := (df.rows.zip flags).filterMap
    (fun p => if p.2 then some p.1 else none)
  ({ rows := keptRows, flagged := some (flags.filter (fun b => b)) }, dfMut)

/-- find_recurring_charges in state-passing form: main.py lines 51-67
contain no assignment into the input frame (groupby and the aggregation
allocate fresh objects), so the post-state of the input is the input. -/
def find_recurring_charges_st (df : List Transaction) :
    List RecurringEntry × List Transaction :=
  (find_recurring_charges df, df)

/-- top_vendors_by_spending in state-passing form: main.py lines 74-76
contain no assignment into the input frame. -/
def top_vendors_by_spending_st (df : List Transaction) (top_n : Nat) :
    List (String × ℚ) × List Transaction :=
  (top_vendors_by_spending df top_n, df)

/-- most_expensive_charges in state-passing form: main.py lines 78-80
contain no assignment into the input frame. -/
def most_expensive_charges_st (df : List Transaction) (top_n : Nat) :
    List (String × ℚ) × List Transaction :=
  (most_expensive_charges df top_n, df)

/-- The analysis phase of main (main.py lines 121-127): clean per
category from the same loaded base frame, then run the recurring analysis
on the recurring slice and the three spending analyses on the spending
slice.  Components: (recurring charges, top vendors, most expensive
charges, flagged subscriptions). -/
def main_results (exclusions : Exclusions) (df : List Transaction) :
    List RecurringEntry × List (String × ℚ) × List (String × ℚ) × SpendFrame :=
  let df_recurring := clean_data exclusions .recurring df
  let recurring_charges := find_recurring_charges df_recurring
  let df_spending := clean_data exclusions .spending df
  let top_vendors := top_vendors_by_spending df_spending 25
  let expensive_charges := most_expensive_charges df_spending 25
  let flagged_subscriptions := (flag_subscription_keywords ⟨df_spending, none⟩).1
  (recurring_charges, top_vendors, expensive_charges, flagged_subscriptions)

/-- A parsed JSON document, for modelling the exclusion-policy file.
Objects carry their fields in document order; keys are assumed unique. -/
inductive Json where
  | null
  | bool (b : Bool)
  | num (q : ℚ)
  | str (s : String)
  | arr (elems : List Json)
  | obj (fields : List (String × Json))

/-- What load_exclusions finds at its file path: no file at all, a file
that is not syntactically valid JSON, or a parsed JSON document. -/
inductive PolicySource where
  | absent
  | invalidJson
  | parsed (data : Json)

/-- The warning printed by main.py line 24. -/
def warningMessage : String :=
  "Warning: Exclusion file is not valid JSON. Ignoring exclusions."

/-- The preset empty slice of main.py lines 12-13. -/
def emptyCategoryExclusions : CategoryExclusions :=
  { vendors := [], keywords := [], charges := [] }

/-- The preset policy of main.py lines 11-14: empty rule sets for both
categories. -/
def emptyExclusions : Exclusions :=
  { recurring := emptyCategoryExclusions, spending := emptyCategoryExclusions }

/-- Python dict.get(key, default): on a JSON object, the value stored at
the key (or the default); on any other value, the AttributeError the
interpreter raises for a missing .get attribute, which load_exclusions
does not catch. -/
def dictGet (j : Json) (key : String) (dflt : Json) : Except String Json :=
  match j with
  | .obj fields => .ok ((fields.lookup key).getD dflt)
  | _ => .error "AttributeError"

/-- Python truthiness of a JSON value, for the `or []` in main.py
lines 20-22. -/
def pyFalsy : Json → Bool
  | .null => true
  | .bool b => !b
  | .num q => decide (q = 0)
  | .str s => decide (s = "")
  | .arr elems => elems.isEmpty
  | .obj fields => fields.isEmpty

/-- set(map(str.lower, v)) in main.py lines 20-21: iterate v and
lower-case each element.  A JSON array must contain strings (str.lower on
anything else raises TypeError); iterating a string yields its one-char
substrings and iterating an object yields its keys, both of which lower
fine; the remaining values are not iterable. -/
def pyIterLower : Json → Except String (List String)
  | .arr elems => elems.mapM (fun e =>
      match e with
      | .str s => .ok (pyLower s)
      | _ => .error "TypeError")
  | .str s => .ok (s.data.map (fun c => pyLower (String.mk [c])))
  | .obj fields => .ok (fields.map (fun f => pyLower f.1))
  | _ => .error "TypeError"

/-- One element of set(v) for the charges set of main.py line 22.
Numbers are kept; Python booleans are numbers (True equals 1, False
equals 0); strings and null are hashable but can never compare equal to a
float charge, so they are dropped from the modelled set; lists and dicts
are unhashable and raise TypeError. -/
def pyHashableNum : Json → Except String (Option ℚ)
  | .num q => .ok (some q)
  | .bool b => .ok (some (if b then 1 else 0))
  | .str _ => .ok none
  | .null => .ok none
  | .arr _ => .error "TypeError"
  | .obj _ => .error "TypeError"

/-- set(v) for the charges entry (main.py line 22): iterate v and collect
the values that can match a charge.  Iterating a string or an object
yields only strings, none of which match a float charge. -/
def pyNumSet (j : Json) : Except String (List ℚ) :=
  match j with
  | .arr elems => do
      let vals ← elems.mapM pyHashableNum
      .ok (vals.filterMap id)
  | .str _ => .ok []
  | .obj _ => .ok []
  | _ => .error "TypeError"

/-- The loop body of main.py lines 20-22 for one category name: read the
category record (default empty), then build the three rule sets, each
defaulting to empty when absent or falsy. -/
def loadCategoryExclusions (data : Json) (category : String) :
    Except String CategoryExclusions := do
  let catObj ← dictGet data category (.obj [])
  let vendorsRaw ← dictGet catObj "vendors" (.arr [])
  let vendors ← pyIterLower (if pyFalsy vendorsRaw then .arr [] else vendorsRaw)
  let keywordsRaw ← dictGet catObj "keywords" (.arr [])
  let keywords ← pyIterLower (if pyFalsy keywordsRaw then .arr [] else keywordsRaw)
  let chargesRaw ← dictGet catObj "charges" (.arr [])
  let charges ← pyNumSet (if pyFalsy chargesRaw then .arr [] else chargesRaw)
  .ok { vendors := vendors, keywords := keywords, charges := charges }

/-- load_exclusions (main.py lines 10-25).  An absent file returns the
preset empty policy; a file that fails json.load returns the preset empty
policy after printing the warning (the only except clause catches
JSONDecodeError alone); a parsed document is read by the category loop,
from which any raised error propagates uncaught.  The result carries the
list of printed warnings. -/
def load_exclusions (src : PolicySource) :
    Except String (Exclusions × List String) :=
  match src with
  | .absent => .ok (emptyExclusions, [])
  | .invalidJson => .ok (emptyExclusions, [warningMessage])
  | .parsed data => do
      let recurringEx ← loadCategoryExclusions data "recurring"
      let spendingEx ← loadCategoryExclusions data "spending"
      .ok ({ recurring := recurringEx, spending := spendingEx }, [])

/-- Concrete frame: one vendor, one charge, four occurrences spread over
three distinct months (two of them inside 2024-01). -/
def sameMonthRepeatDf : List Transaction :=
  [ { date := ⟨2024, 1, 5⟩, vendor := "acme", charge := -1 },
    { date := ⟨2024, 1, 20⟩, vendor := "acme", charge := -1 },
    { date := ⟨2024, 2, 5⟩, vendor := "acme", charge := -1 },
    { date := ⟨2024, 3, 5⟩, vendor := "acme", charge := -1 } ]

/-- Concrete frame with two qualifying recurring groups of different
total_spent: vendor aaa totals -3 over three months, vendor bbb totals -6
over three months. -/
def twoGroupDf : List Transaction :=
  [ { date := ⟨2024, 1, 1⟩, vendor := "aaa", charge := -1 },
    { date := ⟨2024, 2, 1⟩, vendor := "aaa", charge := -1 },
    { date := ⟨2024, 3, 1⟩, vendor := "aaa", charge := -1 },
    { date := ⟨2024, 1, 1⟩, vendor := "bbb", charge := -2 },
    { date := ⟨2024, 2, 1⟩, vendor := "bbb", charge := -2 },
    { date := ⟨2024, 3, 1⟩, vendor := "bbb", charge := -2 } ]

/-- Concrete frame whose only transaction is a credit (positive charge). -/
def creditOnlyDf : List Transaction :=
  [ { date := ⟨2024, 1, 5⟩, vendor := "acme", charge := 5 } ]

/-- Concrete spending frame (flagged column not yet written) with one
subscription-keyword vendor. -/
def membershipFrame : SpendFrame :=
  { rows := [ { date := ⟨2024, 1, 5⟩, vendor := "acme membership", charge := -3 } ],
    flagged := none }

/-- A policy excluding vendor netflix from the recurring category only. -/
def recurringOnlyPolicyA : Exclusions :=
  { recurring := { vendors := ["netflix"], keywords := [], charges := [] },
    spending := { vendors := [], keywords := [], charges := [] } }

/-- A policy with different recurring-slice rules than
`recurringOnlyPolicyA` and the same (empty) spending slice. -/
def recurringOnlyPolicyB : Exclusions :=
  { recurring := { vendors := [], keywords := ["xyz"], charges := [-2] },
    spending := { vendors := [], keywords := [], charges := [] } }

theorem mem_dropDuplicatesAux {α : Type} [DecidableEq α] (l : List α)
    (seen : List α) (x : α) :
    x ∈ dropDuplicatesAux seen l ↔ x ∈ l ∧ x ∉ seen := by
  induction l generalizing seen with
  | nil => simp [dropDuplicatesAux]
  | cons y ys ih =>
    by_cases hy : y ∈ seen
    · simp only [dropDuplicatesAux, if_pos hy, ih, List.mem_cons]
      constructor
      · rintro ⟨hx, hs⟩
        exact ⟨Or.inr hx, hs⟩
      · rintro ⟨hx | hx, hs⟩
        · exact absurd (hx ▸ hy) hs
        · exact ⟨hx, hs⟩
    · simp only [dropDuplicatesAux, if_neg hy, List.mem_cons, ih]
      constructor
      · rintro (rfl | ⟨hx, hs⟩)
        · exact ⟨Or.inl rfl, hy⟩
        · exact ⟨Or.inr hx, fun hxs => hs (Or.inr hxs)⟩
      · rintro ⟨rfl | hx, hs⟩
        · exact Or.inl rfl
        · by_cases hxy : x = y
          · exact Or.inl hxy
          · exact Or.inr ⟨hx, by simp [hxy, hs]⟩

theorem mem_dropDuplicates {α : Type} [DecidableEq α] (l : List α) (x : α) :
    x ∈ dropDuplicates l ↔ x ∈ l := by
  simp [dropDuplicates, mem_dropDuplicatesAux]

theorem nodup_dropDuplicatesAux {α : Type} [DecidableEq α] (l : List α)
    (seen : List α) : (dropDuplicatesAux seen l).Nodup := by
  induction l generalizing seen with
  | nil => simp [dropDuplicatesAux]
  | cons y ys ih =>
    by_cases hy : y ∈ seen
    · simpa [dropDuplicatesAux, if_pos hy] using ih seen
    · simp only [dropDuplicatesAux, if_neg hy, List.nodup_cons]
      refine ⟨fun hmem => ?_, ih (y :: seen)⟩
      exact ((mem_dropDuplicatesAux ys (y :: seen) y).mp hmem).2 (List.mem_cons_self y seen)

theorem sublist_dropDuplicatesAux {α : Type} [DecidableEq α] (l : List α)
    (seen : List α) : (dropDuplicatesAux seen l).Sublist l := by
  induction l generalizing seen with
  | nil => simp [dropDuplicatesAux]
  | cons y ys ih =>
    by_cases hy : y ∈ seen
    · simpa [dropDuplicatesAux, if_pos hy] using (ih seen).cons y
    · simpa [dropDuplicatesAux, if_neg hy] using (ih (y :: seen)).cons₂ y

theorem mem_find_recurring_charges (df : List Transaction) (e : RecurringEntry) :
    e ∈ find_recurring_charges df ↔
      ∃ k ∈ pandasGroupKeys df, recurringEntryOf df k = some e := by
  unfold find_recurring_charges
  rw [(List.perm_insertionSort recurringOrder _).mem_iff]
  simp [List.mem_filterMap]

theorem recurringEntryOf_eq_some (df : List Transaction) (k : String × ℚ)
    (e : RecurringEntry) :
    recurringEntryOf df k = some e ↔
      2 < (monthsOf (groupTransactions df k)).length ∧
      e = { vendor := k.1, charge := k.2,
            total_spent := k.2 * ((monthsOf (groupTransactions df k)).length : ℚ),
            months := monthsOf (groupTransactions df k) } := by
  unfold recurringEntryOf
  by_cases h : 2 < (monthsOf (groupTransactions df k)).length
  · simp [h, eq_comm]
  · simp [h]

theorem mem_pandasGroupKeys (df : List Transaction) (k : String × ℚ) :
    k ∈ pandasGroupKeys df ↔ ∃ t ∈ df, t.vendor = k.1 ∧ t.charge = k.2 := by
  unfold pandasGroupKeys
  rw [(List.perm_insertionSort groupKeyOrder _).mem_iff, mem_dropDuplicates]
  simp [List.mem_map, Prod.ext_iff]

theorem key_mem_of_months (df : List Transaction) (v : String) (c : ℚ)
    (h : 2 < (monthsOf (groupTransactions df (v, c))).length) :
    (v, c) ∈ pandasGroupKeys df := by
  have hne : groupTransactions df (v, c) ≠ [] := by
    intro h0
    rw [h0] at h
    simp [monthsOf, dropDuplicates, dropDuplicatesAux] at h
  obtain ⟨t, ht⟩ := List.exists_mem_of_ne_nil _ hne
  have ht' := List.mem_filter.mp ht
  rw [mem_pandasGroupKeys]
  exact ⟨t, ht'.1, by simpa using ht'.2⟩

/-- Claim C3: for every input to the exclusion filter, a transaction
appears in the output iff none of the three rules of the policy slice
matches it — its lower-cased vendor is not in the vendors set, no keyword
occurs as a substring of its lower-cased vendor name, and its charge is
not a member of the charges set; equivalently, it is dropped iff at least
one rule matches. -/
theorem exclusion_filter_mem_iff (ex : CategoryExclusions)
    (df : List Transaction) (t : Transaction) :
    t ∈ exclusion_filter ex df ↔
      t ∈ df ∧ ¬(pyLower t.vendor ∈ ex.vendors)
        ∧ ¬(∃ keyword ∈ ex.keywords, strContains (pyLower t.vendor) keyword = true)
        ∧ ¬(t.charge ∈ ex.charges) := by
  simp only [exclusion_filter, List.mem_filter, List.any_eq_true, Bool.not_eq_true',
    decide_eq_false_iff_not, Bool.not_eq_true, Bool.or_eq_false_iff]
  constructor
  · rintro ⟨⟨⟨ht, h1⟩, h2⟩, h3⟩
    refine ⟨ht, h1, ?_, by simpa using h3⟩
    rintro ⟨keyword, hkw, hsub⟩
    have := List.any_eq_true.mpr ⟨keyword, hkw, hsub⟩
    simp [this] at h2
  · rintro ⟨ht, h1, h2, h3⟩
    refine ⟨⟨⟨ht, h1⟩, ?_⟩, by simpa using h3⟩
    by_contra hany
    rw [Bool.not_eq_false, List.any_eq_true] at hany
    obtain ⟨keyword, hkw, hsub⟩ := hany
    exact h2 ⟨keyword, hkw, hsub⟩

/-- Claim C4: a (vendor, charge) partition is represented in the output
of find_recurring_charges iff its transactions span strictly more than
two distinct calendar year-months. -/
theorem recurring_iff_more_than_two_months (df : List Transaction)
    (v : String) (c : ℚ) :
    (∃ e ∈ find_recurring_charges df, e.vendor = v ∧ e.charge = c) ↔
      2 < (monthsOf (groupTransactions df (v, c))).length := by
  constructor
  · rintro ⟨e, he, hv, hc⟩
    rw [mem_find_recurring_charges] at he
    obtain ⟨⟨k1, k2⟩, hk, hsome⟩ := he
    rw [recurringEntryOf_eq_some] at hsome
    obtain ⟨hlen, rfl⟩ := hsome
    replace hv : k1 = v := hv
    replace hc : k2 = c := hc
    subst hv
    subst hc
    exact hlen
  · intro h
    refine ⟨_, (mem_find_recurring_charges df _).mpr
      ⟨(v, c), key_mem_of_months df v c h,
        (recurringEntryOf_eq_some df (v, c) _).mpr ⟨h, rfl⟩⟩, rfl, rfl⟩

/-- Claim C6: two transactions are duplicates iff date, vendor and charge
all agree (record equality on the three kept columns); deduplication
keeps the first occurrence of each class (the result is duplicate-free,
preserves membership, and is an order-preserving sublist of the input);
and clean_data runs it before the category-specific exclusion rules, so
every category starts from the same deduplicated base set. -/
theorem dedup_first_before_filtering (exclusions : Exclusions)
    (category : Category) (df : List Transaction) :
    clean_data exclusions category df
        = exclusion_filter (exclusions.slice category) (dropDuplicates df)
      ∧ (dropDuplicates df).Nodup
      ∧ (∀ t : Transaction, t ∈ dropDuplicates df ↔ t ∈ df)
      ∧ (dropDuplicates df).Sublist df
      ∧ (∀ t u : Transaction,
          t = u ↔ t.date = u.date ∧ t.vendor = u.vendor ∧ t.charge = u.charge) := by
  refine ⟨rfl, nodup_dropDuplicatesAux df [], fun t => mem_dropDuplicates df t,
    sublist_dropDuplicatesAux df [], fun t u => ?_⟩
  constructor
  · rintro rfl
    exact ⟨rfl, rfl, rfl⟩
  · rintro ⟨h1, h2, h3⟩
    cases t
    cases u
    simp_all

/-- Claim C10: both spending aggregators return at most top_n entries,
and their Python default argument is 25. -/
theorem aggregators_top_n_bound_and_default (df : List Transaction)
    (top_n : Nat) :
    (top_vendors_by_spending df top_n).length ≤ top_n
      ∧ (most_expensive_charges df top_n).length ≤ top_n
      ∧ top_vendors_by_spending_default df = top_vendors_by_spending df 25
      ∧ most_expensive_charges_default df = most_expensive_charges df 25 := by
  refine ⟨?_, ?_, rfl, rfl⟩
  · simp only [top_vendors_by_spending, List.length_take]
    exact min_le_left _ _
  · simp only [most_expensive_charges, List.length_map, List.length_take]
    exact min_le_left _ _

set_option maxRecDepth 16000 in
/-- Counterexample to claim C1: with four occurrences of the acme -1
charge across three distinct months (two occurrences inside 2024-01), the
emitted total_spent is -3 = charge * month_count, not
charge * occurrence_count = -4. -/
theorem recurring_total_spent_uses_month_count_cex :
    find_recurring_charges sameMonthRepeatDf =
      [ { vendor := "acme", charge := -1, total_spent := -3,
          months := [(2024, 1), (2024, 2), (2024, 3)] } ]
    ∧ (groupTransactions sameMonthRepeatDf ("acme", -1)).length = 4
    ∧ ((-3 : ℚ) ≠ (-1 : ℚ) * 4) := by
  refine ⟨?_, ?_, ?_⟩ <;> with_unfolding_all decide

/-- Claim C1 as amended: the total_spent of every emitted recurring group
equals the charge multiplied by the number of distinct calendar months of
its (vendor, charge) partition — not by the occurrence count, so a
same-month repeat contributes only once (main.py line 58). -/
theorem recurring_total_spent_eq_charge_mul_month_count
    (df : List Transaction) (e : RecurringEntry)
    (h : e ∈ find_recurring_charges df) :
    e.total_spent
        = e.charge * ((monthsOf (groupTransactions df (e.vendor, e.charge))).length : ℚ)
      ∧ e.months = monthsOf (groupTransactions df (e.vendor, e.charge)) := by
  rw [mem_find_recurring_charges] at h
  obtain ⟨⟨k1, k2⟩, hk, hsome⟩ := h
  rw [recurringEntryOf_eq_some] at hsome
  obtain ⟨hlen, rfl⟩ := hsome
  exact ⟨rfl, rfl⟩

set_option maxRecDepth 16000 in
theorem recurring_total_spent_eq_charge_mul_month_count_witness :
    ({ vendor := "acme", charge := -1, total_spent := -3,
       months := [(2024, 1), (2024, 2), (2024, 3)] } : RecurringEntry).total_spent
      = (-1 : ℚ)
        * ((monthsOf (groupTransactions sameMonthRepeatDf ("acme", -1))).length : ℚ) := by
  have h := recurring_total_spent_eq_charge_mul_month_count sameMonthRepeatDf
    { vendor := "acme", charge := -1, total_spent := -3,
      months := [(2024, 1), (2024, 2), (2024, 3)] }
    (by with_unfolding_all decide)
  exact h.1

/-- Counterexample to claim C5: on `twoGroupDf` the emitted sequence of
total_spent values is [-3, -6], which is not ascending (the most negative
total comes last, not first). -/
theorem recurring_sort_ascending_cex :
    ((find_recurring_charges twoGroupDf).map RecurringEntry.total_spent
        = [-3, -6])
    ∧ ¬ List.Sorted (fun a b : RecurringEntry => a.total_spent ≤ b.total_spent)
        (find_recurring_charges twoGroupDf) := by
  constructor
  · with_unfolding_all decide
  · with_unfolding_all decide

/-- Claim C5 as amended: find_recurring_charges returns its groups sorted
by total_spent descending (Python sorted with reverse=True), i.e. the
least negative total first. -/
theorem find_recurring_charges_sorted_descending (df : List Transaction) :
    List.Sorted (fun a b : RecurringEntry => b.total_spent ≤ a.total_spent)
      (find_recurring_charges df) :=
  List.sorted_insertionSort recurringOrder
    ((pandasGroupKeys df).filterMap (recurringEntryOf df))

/-- Counterexample to claim C2: on a frame whose only transaction is a
positive (credit) charge, both aggregators still emit it — the code never
filters to negative charges. -/
theorem spending_aggregators_sign_cex :
    top_vendors_by_spending creditOnlyDf 25 = [("acme", 5)]
    ∧ most_expensive_charges creditOnlyDf 25 = [("acme", 5)]
    ∧ (0 : ℚ) ≤ 5 := by
  refine ⟨?_, ?_, ?_⟩ <;> with_unfolding_all decide

/-- Claim C2 as amended: the aggregators draw on all transactions
regardless of sign — every vendor total emitted by
top_vendors_by_spending is the sum of the charges of all of that vendor's
transactions (positive ones included), and every pair emitted by
most_expensive_charges is the (vendor, charge) of some input transaction
of any sign. -/
theorem spending_aggregators_unfiltered_by_sign (df : List Transaction)
    (top_n : Nat) :
    (∀ p ∈ top_vendors_by_spending df top_n,
        p.2 = ((df.filter (fun t => decide (t.vendor = p.1))).map
            Transaction.charge).sum
          ∧ ∃ t ∈ df, t.vendor = p.1)
    ∧ (∀ p ∈ most_expensive_charges df top_n,
        ∃ t ∈ df, t.vendor = p.1 ∧ t.charge = p.2) := by
  constructor
  · intro p hp
    simp only [top_vendors_by_spending] at hp
    have hp1 := List.mem_of_mem_take hp
    rw [(List.perm_insertionSort vendorTotalOrder _).mem_iff, List.mem_map] at hp1
    obtain ⟨v, hv, rfl⟩ := hp1
    refine ⟨rfl, ?_⟩
    rw [(List.perm_insertionSort vendorOrder _).mem_iff, mem_dropDuplicates,
      List.mem_map] at hv
    obtain ⟨t, ht, rfl⟩ := hv
    exact ⟨t, ht, rfl⟩
  · intro p hp
    simp only [most_expensive_charges] at hp
    rw [List.mem_map] at hp
    obtain ⟨t, ht, rfl⟩ := hp
    have ht1 := List.mem_of_mem_take ht
    rw [(List.perm_insertionSort chargeOrder _).mem_iff] at ht1
    exact ⟨t, ht1, rfl, rfl⟩

theorem spending_aggregators_unfiltered_by_sign_witness :
    (("acme", (5 : ℚ)) ∈ top_vendors_by_spending creditOnlyDf 25)
    ∧ ((("acme", (5 : ℚ)).2
          = ((creditOnlyDf.filter
              (fun t => decide (t.vendor = ("acme", (5 : ℚ)).1))).map
                Transaction.charge).sum)
        ∧ ∃ t ∈ creditOnlyDf, t.vendor = ("acme", (5 : ℚ)).1) := by
  have hmem : ("acme", (5 : ℚ)) ∈ top_vendors_by_spending creditOnlyDf 25 := by
    with_unfolding_all decide
  exact ⟨hmem,
    (spending_aggregators_unfiltered_by_sign creditOnlyDf 25).1 _ hmem⟩

/-- Claim C7: the spending analyses (top vendors, most expensive charges,
flagged subscriptions) depend only on the spending slice of the policy,
and the recurring analysis only on the recurring slice — changing the
other slice leaves the output unchanged. -/
theorem category_noninterference (ex1 ex2 : Exclusions)
    (df : List Transaction) :
    (ex1.spending = ex2.spending →
        (main_results ex1 df).2 = (main_results ex2 df).2)
    ∧ (ex1.recurring = ex2.recurring →
        (main_results ex1 df).1 = (main_results ex2 df).1) := by
  have hslice : ∀ c : Category, ex1.slice c = ex2.slice c →
      clean_data ex1 c df = clean_data ex2 c df := by
    intro c h
    simp [clean_data, h]
  constructor
  · intro h
    have hs := hslice .spending h
    simp [main_results, hs]
  · intro h
    have hr := hslice .recurring h
    simp [main_results, hr]

theorem category_noninterference_witness :
    recurringOnlyPolicyA.spending = recurringOnlyPolicyB.spending
    ∧ (main_results recurringOnlyPolicyA twoGroupDf).2
        = (main_results recurringOnlyPolicyB twoGroupDf).2 :=
  ⟨rfl, (category_noninterference recurringOnlyPolicyA recurringOnlyPolicyB
    twoGroupDf).1 rfl⟩

/-- Claim C8 as amended: an absent policy file, or one that is not
syntactically valid JSON, degrades to the preset empty policy and the run
proceeds (with the printed warning in the invalid-JSON case). -/
theorem load_exclusions_absent_or_invalid_empty :
    load_exclusions .absent = .ok (emptyExclusions, [])
    ∧ load_exclusions .invalidJson = .ok (emptyExclusions, [warningMessage]) :=
  ⟨rfl, rfl⟩

/-- Counterexample to claim C8: a syntactically valid JSON document whose
top level is not an object — here the empty array — makes load_exclusions
raise (AttributeError on .get, uncaught by the except clause of main.py
line 23) instead of degrading to the empty policy. -/
theorem load_exclusions_nonobject_cex :
    load_exclusions (PolicySource.parsed (Json.arr [])) =
      .error "AttributeError" := rfl

set_option maxRecDepth 16000 in
/-- Counterexample to claim C9: flag_subscription_keywords changes its
input frame — after the call the frame carries the flagged column that
line 71 of main.py assigned into it. -/
theorem flag_subscription_mutates_input_cex :
    (flag_subscription_keywords membershipFrame).2 ≠ membershipFrame := by
  with_unfolding_all decide

/-- Claim C9 as amended: recurrence detection and the two spending
aggregators leave their input frame unchanged (they build new
collections), but flag_subscription_keywords is not pure — it writes the
flagged column into its input frame. -/
theorem frame_effects_of_core_operations (df : SpendFrame)
    (rows : List Transaction) (top_n : Nat) :
    (flag_subscription_keywords df).2
        = { rows := df.rows, flagged := some (subscriptionKeywordFlags df.rows) }
      ∧ (find_recurring_charges_st rows).2 = rows
      ∧ (top_vendors_by_spending_st rows top_n).2 = rows
      ∧ (most_expensive_charges_st rows top_n).2 = rows :=
  ⟨rfl, rfl, rfl, rfl⟩
